import Mathlib

/-!
Shallow embedding of the agentify-mcp session registry and task-completion
detection engine (src/src/server/session-manager.ts, the StateTracker class,
and src/src/server/agentify-mcp-server.ts), with theorems checking the
natural-language specification against the code.

JavaScript `Map<string, V>` values are modelled as insertion-ordered
association lists with unique keys; timestamps (`Date`, `Date.now()`) are
modelled as `Nat` milliseconds passed explicitly; `setTimeout` timers are
modelled as map entries carrying their deadline, fired by an explicit step.
-/

/-- `AgentStatus` enum from src/src/resources/resource-handlers.ts (types section). -/
inductive AgentStatus
  | connected
  | idle
  | running
  | waitingInput
  | paused
  | error
  | completed
  | disconnected
  deriving DecidableEq, Repr

/-- `AgentClientType` enum from src/src/resources/resource-handlers.ts (types section). -/
inductive AgentClientType
  | claudeCode
  | geminiCli
  | openaiCli
  | custom
  deriving DecidableEq, Repr

/-- `AgentClient.connectionInfo` from the types section: timestamps as Nat ms. -/
structure ConnectionInfo where
  connectedAt : Nat
  lastActivity : Nat
  transport : String
  deriving DecidableEq, Repr

/-- `AgentMetrics` from the types section (gauges optional, counters required). -/
structure AgentMetrics where
  cpuUsage : Option Nat
  memoryUsage : Option Nat
  requestCount : Nat
  errorCount : Nat
  uptime : Nat
  deriving DecidableEq, Repr

/-- `AgentContext` from the types section (only the field the embedded code touches). -/
structure AgentContext where
  workingDirectory : Option String
  deriving DecidableEq, Repr

/-- `AgentClient` interface from the types section. -/
structure AgentClient where
  id : String
  type : AgentClientType
  name : String
  version : String
  capabilities : List String
  connectionInfo : ConnectionInfo
  status : AgentStatus
  context : AgentContext
  metrics : AgentMetrics
  deriving DecidableEq, Repr

/-- Lookup in a JS `Map` modelled as an association list (first binding wins;
reachable maps have unique keys). -/
def mapGet {α : Type} (k : String) : List (String × α) → Option α
  | [] => none
  | p :: rest => if p.1 = k then some p.2 else mapGet k rest

/-- `Map.set`: overwrite the existing binding in place, or append a new one. -/
def mapSet {α : Type} (k : String) (v : α) : List (String × α) → List (String × α)
  | [] => [(k, v)]
  | p :: rest => if p.1 = k then (k, v) :: rest else p :: mapSet k v rest

/-- `Map.delete`: remove the binding for `k` (all of them; real maps hold at most one). -/
def mapErase {α : Type} (k : String) : List (String × α) → List (String × α)
  | [] => []
  | p :: rest => if p.1 = k then mapErase k rest else p :: mapErase k rest

/-- Events emitted by `SessionManager` (an `EventEmitter`): the event names and
payloads used by `this.emit(...)` calls in session-manager.ts. -/
inductive SMEvent
  | clientConnected (client : AgentClient)
  | clientDisconnected (client : AgentClient)
  | clientStatusChanged (client : AgentClient) (oldStatus newStatus : AgentStatus)
  deriving DecidableEq, Repr

/-- The `SessionManager` state: its `clients : Map<string, AgentClient>` field. -/
structure SessionManagerState where
  clients : List (String × AgentClient)
  deriving DecidableEq, Repr

/-- Initial `SessionManager` state (empty map, as in the constructor). -/
def emptySessions : SessionManagerState := { clients := [] }

/-- `SessionManager.registerClient` (session-manager.ts:14-18): unconditional
`clients.set(client.id, client)` plus a `clientConnected` emit; no validation. -/
def registerClient (c : AgentClient) (s : SessionManagerState) :
    SessionManagerState × List SMEvent :=
  ({ clients := mapSet c.id c s.clients }, [SMEvent.clientConnected c])

/-- `SessionManager.unregisterClient` (session-manager.ts:20-28): if present,
set status to DISCONNECTED, delete from the map, emit `clientDisconnected`
with the mutated client; unknown ids are a silent no-op. -/
def unregisterClient (clientId : String) (s : SessionManagerState) :
    SessionManagerState × List SMEvent :=
  match mapGet clientId s.clients with
  | none => (s, [])
  | some c =>
    ({ clients := mapErase clientId s.clients },
     [SMEvent.clientDisconnected { c with status := AgentStatus.disconnected }])

/-- `SessionManager.getClient` (session-manager.ts:30-32). -/
def getClient (clientId : String) (s : SessionManagerState) : Option AgentClient :=
  mapGet clientId s.clients

/-- `SessionManager.getAllClients` (session-manager.ts:34-36): `Map.values()`
in insertion order. -/
def getAllClients (s : SessionManagerState) : List AgentClient :=
  s.clients.map Prod.snd

/-- `SessionManager.getActiveClients` (session-manager.ts:42-44): clients whose
status is not DISCONNECTED. -/
def getActiveClients (s : SessionManagerState) : List AgentClient :=
  (getAllClients s).filter (fun c => decide (c.status ≠ AgentStatus.disconnected))

/-- `SessionManager.updateClientStatus` (session-manager.ts:50-65): if the id is
registered, set `status` to the requested value, touch `lastActivity`, and emit
`clientStatusChanged` with old and new status; there is no transition table. -/
def updateClientStatus (clientId : String) (status : AgentStatus) (now : Nat)
    (s : SessionManagerState) : SessionManagerState × List SMEvent :=
  match mapGet clientId s.clients with
  | none => (s, [])
  | some c =>
    let c2 : AgentClient :=
      { c with status := status,
               connectionInfo := { c.connectionInfo with lastActivity := now } }
    ({ clients := mapSet clientId c2 s.clients },
     [SMEvent.clientStatusChanged c2 c.status status])

/-- `SessionManager.incrementClientRequests` (session-manager.ts:94-100):
bump `metrics.requestCount` and touch `lastActivity`; no other effect. -/
def incrementClientRequests (clientId : String) (now : Nat)
    (s : SessionManagerState) : SessionManagerState :=
  match mapGet clientId s.clients with
  | none => s
  | some c =>
    let c2 : AgentClient :=
      { c with metrics := { c.metrics with requestCount := c.metrics.requestCount + 1 },
               connectionInfo := { c.connectionInfo with lastActivity := now } }
    { clients := mapSet clientId c2 s.clients }

/-- Result record of `SessionManager.getClientStats` (session-manager.ts:110-140);
`byType`/`byStatus` are the JS records read with a `|| 0` default, so they are
total count functions here. -/
structure ClientStats where
  total : Nat
  active : Nat
  byType : AgentClientType → Nat
  byStatus : AgentStatus → Nat

/-- `SessionManager.getClientStats` (session-manager.ts:110-140). -/
def getClientStats (s : SessionManagerState) : ClientStats :=
  { total := (getAllClients s).length
  , active := (getActiveClients s).length
  , byType := fun t => ((getAllClients s).filter (fun c => decide (c.type = t))).length
  , byStatus := fun st => ((getAllClients s).filter (fun c => decide (c.status = st))).length }

/-- `SessionManager.getInactiveClients` (session-manager.ts:154-160): clients
whose elapsed time since `lastActivity` strictly exceeds `timeoutMs`
(`now - lastActivity > timeoutMs`, over all stored clients). -/
def getInactiveClients (now timeoutMs : Nat) (s : SessionManagerState) : List AgentClient :=
  (getAllClients s).filter
    (fun c => decide (now - c.connectionInfo.lastActivity > timeoutMs))

/-- Modelled from the spec: transition table of spec section 4.2. The
implementation in src/ defines no such table; this definition follows the
spec text and is used only to state claims about the transition discipline. -/
def specAllowedTransition : AgentStatus → AgentStatus → Bool
  | .connected, .idle | .connected, .running | .connected, .disconnected => true
  | .idle, .running | .idle, .paused | .idle, .disconnected => true
  | .running, .idle | .running, .completed | .running, .error | .running, .paused => true
  | .paused, .running | .paused, .idle | .paused, .disconnected => true
  | .error, .idle | .error, .running | .error, .disconnected => true
  | .completed, .idle | .completed, .running | .completed, .disconnected => true
  | _, _ => false

/-- Leading-segment test on character lists (needle starts hay). -/
def charsLeading : List Char → List Char → Bool
  | [], _ => true
  | _ :: _, [] => false
  | a :: as, b :: bs => a = b && charsLeading as bs

/-- Substring test on character lists, modelling JS `String.includes`. -/
def charsContains (needle : List Char) : List Char → Bool
  | [] => charsLeading needle []
  | c :: rest => charsLeading needle (c :: rest) || charsContains needle rest

/-- JS `hay.includes(needle)`. -/
def strContains (hay needle : String) : Bool :=
  charsContains needle.data hay.data

/-- JS regex `/needle$/` anchoring test: `hay` ends with `needle`. -/
def strEndsWith (hay needle : String) : Bool :=
  charsLeading needle.data.reverse hay.data.reverse

/-- JS `String.toLowerCase`, as character-wise lowering over the underlying
character list (the code only ever matches ASCII keywords). -/
def toLowerStr (s : String) : String := String.mk (s.data.map Char.toLower)

/-- `params.userAgent?.toLowerCase() || ''` from agentify-mcp-server.ts:177-178. -/
def lowerOrEmpty (s : Option String) : String := toLowerStr (s.getD "")

/-- The fields of `request.params` read by the InitializeRequestSchema handler
and `detectClientType` (agentify-mcp-server.ts:75-105,176-193). -/
structure InitParams where
  clientInfoName : Option String
  clientInfoVersion : Option String
  userAgent : Option String
  clientName : Option String
  deriving DecidableEq, Repr

/-- `AgentifyMCPServer.detectClientType` (agentify-mcp-server.ts:176-193). -/
def detectClientType (p : InitParams) : AgentClientType :=
  let userAgent := lowerOrEmpty p.userAgent
  let clientName := lowerOrEmpty p.clientName
  if strContains userAgent "claude" || strContains clientName "claude" then .claudeCode
  else if strContains userAgent "gemini" || strContains clientName "gemini" then .geminiCli
  else if strContains userAgent "openai" || strContains clientName "openai" then .openaiCli
  else .custom

/-- The `AgentClient` literal built by the InitializeRequestSchema handler
(agentify-mcp-server.ts:82-102): status CONNECTED, both timestamps `now`,
zero counters. -/
def makeInitClient (p : InitParams) (now : Nat) (cwd : String) : AgentClient :=
  { id := "session_" ++ toString now
  , type := detectClientType p
  , name := p.clientInfoName.getD "Unknown Client"
  , version := p.clientInfoVersion.getD "1.0.0"
  , capabilities := []
  , connectionInfo := { connectedAt := now, lastActivity := now, transport := "stdio" }
  , status := AgentStatus.connected
  , context := { workingDirectory := some cwd }
  , metrics := { cpuUsage := none, memoryUsage := none
               , requestCount := 0, errorCount := 0, uptime := 0 } }

-- Association-map helper lemmas ------------------------------------------------

theorem mapGet_mapSet_self {α : Type} (k : String) (v : α) (m : List (String × α)) :
    mapGet k (mapSet k v m) = some v := by
  induction m with
  | nil => simp [mapGet, mapSet]
  | cons p rest ih =>
    by_cases h : p.1 = k
    · simp [mapSet, mapGet, h]
    · simp [mapSet, mapGet, h, ih]

theorem mapGet_mapErase_self {α : Type} (k : String) (m : List (String × α)) :
    mapGet k (mapErase k m) = none := by
  induction m with
  | nil => simp [mapGet, mapErase]
  | cons p rest ih =>
    by_cases h : p.1 = k
    · simp [mapErase, h, ih]
    · simp [mapErase, mapGet, h, ih]

theorem mapErase_key_ne {α : Type} (k : String) (m : List (String × α)) :
    ∀ p ∈ mapErase k m, p.1 ≠ k := by
  induction m with
  | nil => simp [mapErase]
  | cons q rest ih =>
    by_cases h : q.1 = k
    · simpa [mapErase, h] using ih
    · intro p hp
      simp only [mapErase, h, if_neg] at hp
      rcases List.mem_cons.mp hp with h1 | h1
      · subst h1; exact h
      · exact ih p h1

theorem mapErase_snd_subset {α : Type} (k : String) (m : List (String × α)) :
    ∀ a ∈ (mapErase k m).map Prod.snd, a ∈ m.map Prod.snd := by
  induction m with
  | nil => simp [mapErase]
  | cons q rest ih =>
    by_cases h : q.1 = k
    · intro a ha
      simp only [mapErase, h, if_pos] at ha
      rcases (List.mem_map).mp (ih a ha) with ⟨p, hp, rfl⟩
      exact List.mem_map_of_mem Prod.snd (List.mem_cons_of_mem q hp)
    · intro a ha
      simp only [mapErase, h, if_neg, List.map_cons] at ha
      rcases List.mem_cons.mp ha with h1 | h1
      · simp [List.map_cons, h1]
      · exact List.mem_cons_of_mem _ (ih a h1)

-- StateTracker embedding --------------------------------------------------------

/-- Trigger-specific `details` payloads passed to `detectTaskCompletion` by the
StateTracker (idle timer callback, file analysis, `markTaskCompleted`). -/
inductive CompletionDetails
  | idleTimeoutInfo (reason : String) (timeoutMs : Nat)
  | fileAnalysisInfo (file : String) (indicators : List String)
  | manualInfo (reason : String)
  deriving DecidableEq, Repr

/-- The completion-event record built by `StateTracker.detectTaskCompletion`
(emitted under the names `taskCompleted` and `agentTaskCompleted`). -/
structure CompletionEvent where
  clientId : String
  trigger : String
  details : CompletionDetails
  timestamp : Nat
  deriving DecidableEq, Repr

/-- A pending `setTimeout` idle timer: the callback closure captures the client
id and `config.idleTimeout`; `deadline` is the absolute firing time. -/
structure TaskTimer where
  clientId : String
  timeoutMs : Nat
  deadline : Nat
  deriving DecidableEq, Repr

/-- A `fileChanged` listener registered by `StateTracker.startTaskMonitoring`
(the closure captures the client id and its `config.idleTimeout`). -/
structure FileEvent where
  clientId : String
  kind : String
  filePath : String
  timestamp : Nat
  deriving DecidableEq, Repr

/-- The task-monitoring state of `StateTracker`: the `trackingIntervals` entries
keyed by a client id plus the suffix used for idle timers, the `fileChanged`
listeners registered by `startTaskMonitoring`, and the trace of completion
events emitted so far. -/
structure TrackerState where
  taskTimers : List (String × TaskTimer)
  fileListeners : List (String × Nat)
  events : List CompletionEvent
  deriving DecidableEq, Repr

/-- Initial tracker state (empty maps, no listeners, no events). -/
def emptyTracker : TrackerState :=
  { taskTimers := [], fileListeners := [], events := [] }

/-- The timer key suffix used by the StateTracker for idle timers. -/
def taskKey (clientId : String) : String := clientId ++ "_task"

/-- `StateTracker.stopTaskMonitoring` (the class body, lines 339-346): clear and
delete the idle timer for this client if present; nothing else. -/
def stopTaskMonitoring (clientId : String) (s : TrackerState) : TrackerState :=
  { s with taskTimers := mapErase (taskKey clientId) s.taskTimers }

/-- `StateTracker.detectTaskCompletion` (lines 320-337): unconditionally build
the completion event, emit it (under both event names), then call
`stopTaskMonitoring`. There is no guard against repeated calls. -/
def detectTaskCompletion (clientId trigger : String) (details : CompletionDetails)
    (now : Nat) (s : TrackerState) : TrackerState :=
  stopTaskMonitoring clientId
    { s with events := s.events ++
        [{ clientId := clientId, trigger := trigger, details := details, timestamp := now }] }

/-- The `details` object passed by the idle-timer callback. -/
def idleTimeoutDetails (timeoutMs : Nat) : CompletionDetails :=
  CompletionDetails.idleTimeoutInfo
    "No activity detected for specified timeout period" timeoutMs

/-- `StateTracker.startTaskMonitoring` (lines 233-271): schedule the idle timer
(replacing any existing one for this client) and register a `fileChanged`
listener; the listener is never removed. -/
def startTaskMonitoring (clientId : String) (idleTimeout : Nat) (now : Nat)
    (s : TrackerState) : TrackerState :=
  { s with
      taskTimers := mapSet (taskKey clientId)
        { clientId := clientId, timeoutMs := idleTimeout, deadline := now + idleTimeout }
        s.taskTimers
      fileListeners := s.fileListeners ++ [(clientId, idleTimeout)] }

/-- `StateTracker.resetIdleTimer` (lines 273-287): clear any pending idle timer
for this client and schedule a fresh one. -/
def resetIdleTimer (clientId : String) (idleTimeout : Nat) (now : Nat)
    (s : TrackerState) : TrackerState :=
  { s with
      taskTimers := mapSet (taskKey clientId)
        { clientId := clientId, timeoutMs := idleTimeout, deadline := now + idleTimeout }
        s.taskTimers }

/-- Expiry of a scheduled `setTimeout`: the timer registered under `key` fires
at its deadline, running the idle-timeout callback; a cancelled (deleted)
timer never fires. -/
def fireIdleTimer (key : String) (now : Nat) (s : TrackerState) : TrackerState :=
  match mapGet key s.taskTimers with
  | none => s
  | some tm =>
    if now = tm.deadline then
      detectTaskCompletion tm.clientId "idle_timeout" (idleTimeoutDetails tm.timeoutMs) now s
    else s

/-- The hard-coded completion file patterns of
`StateTracker.analyzeFileChangesForCompletion` (lines 292-297), as anchored
regex suffix tests. -/
def isCompletionFile (p : String) : Bool :=
  strEndsWith p ".log" || strEndsWith p "package.json" || strEndsWith p "README.md" ||
  strEndsWith p ".test.js" || strEndsWith p ".test.ts"

/-- The hard-coded completion keyword list (line 304). -/
def completionKeywords : List String :=
  ["completed", "finished", "done", "success", "build successful"]

/-- The keywords found in the (lower-cased) file content, in list order:
`completionKeywords.filter((k) => content.toLowerCase().includes(k))`. -/
def matchedKeywords (content : String) : List String :=
  completionKeywords.filter (fun k => strContains (toLowerStr content) k)

/-- `StateTracker.analyzeFileChangesForCompletion` (lines 289-318): only `change`
events on a pattern-matched path are inspected; the file content is read
best-effort (`.catch(() => '')` maps a read failure to the empty string);
a completion event fires when at least one keyword occurs, carrying all
matched keywords as `indicators`. -/
def analyzeFileChangesForCompletion (clientId : String) (ev : FileEvent)
    (readFileContent : String → Option String) (now : Nat) (s : TrackerState) : TrackerState :=
  if isCompletionFile ev.filePath = true ∧ ev.kind = "change" then
    let content := (readFileContent ev.filePath).getD ""
    let matched := matchedKeywords content
    if matched = [] then s
    else detectTaskCompletion clientId "file_analysis"
      (CompletionDetails.fileAnalysisInfo ev.filePath matched) now s
  else s

/-- Dispatch of an emitted `fileChanged` event to the listeners registered by
`startTaskMonitoring`, in registration order: each listener whose captured
client id matches resets the idle timer and then analyzes the change. -/
def dispatchFileChanged (ev : FileEvent) (readFileContent : String → Option String)
    (now : Nat) (s : TrackerState) : TrackerState :=
  s.fileListeners.foldl
    (fun st l =>
      if ev.clientId = l.1 then
        analyzeFileChangesForCompletion l.1 ev readFileContent now
          (resetIdleTimer l.1 l.2 now st)
      else st)
    s

/-- `StateTracker.markTaskCompleted` (lines 349-351): delegate to
`detectTaskCompletion` with trigger `manual`. -/
def markTaskCompleted (clientId : String) (reason : String) (now : Nat)
    (s : TrackerState) : TrackerState :=
  detectTaskCompletion clientId "manual" (CompletionDetails.manualInfo reason) now s

/-- The two stateful components held by `AgentifyMCPServer`: the session
registry and the state tracker (agentify-mcp-server.ts:20-21). -/
structure ServerState where
  sessions : SessionManagerState
  tracker : TrackerState
  deriving DecidableEq, Repr

/-- A request-count increment at the server level: the code path is
`sessionManager.incrementClientRequests`, which touches only the session
registry; the StateTracker is not involved. -/
def serverIncrementClientRequests (clientId : String) (now : Nat)
    (st : ServerState) : ServerState :=
  { st with sessions := incrementClientRequests clientId now st.sessions }

-- Node EventEmitter model --------------------------------------------------------

/-- A subscriber on the event bus: `SessionManager` and `StateTracker` extend
Node's `EventEmitter`. The side effect of invoking a listener is abstracted to
its `id` appearing in the delivery list; `throws` says whether the listener
raises on a given event. -/
structure Listener (α : Type) where
  id : Nat
  throws : α → Bool

/-- Node `EventEmitter.emit` semantics for the emit calls in
session-manager.ts and the StateTracker: listeners run synchronously in
registration order; an exception thrown by a listener propagates out of
`emit` (second component `true`) and the remaining listeners do not run. -/
def emitToListeners {α : Type} (e : α) : List (Listener α) → List Nat × Bool
  | [] => ([], false)
  | l :: rest =>
    if l.throws e then ([l.id], true)
    else
      let r := emitToListeners e rest
      (l.id :: r.1, r.2)

-- Enumerations and counting lemmas ----------------------------------------------

/-- All eight status values, for summing per-status counts. -/
def allStatuses : List AgentStatus :=
  [.connected, .idle, .running, .waitingInput, .paused, .error, .completed, .disconnected]

/-- All four client-type values, for summing per-type counts. -/
def allTypes : List AgentClientType :=
  [.claudeCode, .geminiCli, .openaiCli, .custom]

theorem sum_status_counts (cs : List AgentClient) :
    (allStatuses.map
      (fun st => (cs.filter (fun c => decide (c.status = st))).length)).sum = cs.length := by
  induction cs with
  | nil => simp [allStatuses]
  | cons c rest ih =>
    cases hc : c.status <;>
      simp [allStatuses, List.filter_cons, hc] at ih ⊢ <;> omega

theorem sum_type_counts (cs : List AgentClient) :
    (allTypes.map
      (fun t => (cs.filter (fun c => decide (c.type = t))).length)).sum = cs.length := by
  induction cs with
  | nil => simp [allTypes]
  | cons c rest ih =>
    cases hc : c.type <;>
      simp [allTypes, List.filter_cons, hc] at ih ⊢ <;> omega

-- Claim theorems ----------------------------------------------------------------

/-- C9: `getInactiveClients` (the spec's `sweepInactive`) returns exactly the
stored entities whose elapsed time since `lastActivityAt` is strictly greater
than the timeout, and no others. -/
theorem c9_sweep_inactive_strict (now timeoutMs : Nat) (s : SessionManagerState)
    (c : AgentClient) :
    c ∈ getInactiveClients now timeoutMs s
      ↔ c ∈ getAllClients s ∧ now - c.connectionInfo.lastActivity > timeoutMs := by
  simp [getInactiveClients, List.mem_filter]

/-- C10: in every state of the store, `getClientStats` is self-consistent:
`total` is the number of entities in the client map, `active` counts exactly
the entities whose status is not `disconnected` (so `active ≤ total`), and the
per-status and per-type counts each sum to `total`. -/
theorem c10_client_stats_consistent (s : SessionManagerState) :
    (getClientStats s).total = s.clients.length
    ∧ (getClientStats s).active
        = ((getAllClients s).filter
            (fun c => decide (c.status ≠ AgentStatus.disconnected))).length
    ∧ (getClientStats s).active ≤ (getClientStats s).total
    ∧ (allStatuses.map (getClientStats s).byStatus).sum = (getClientStats s).total
    ∧ (allTypes.map (getClientStats s).byType).sum = (getClientStats s).total := by
  refine ⟨?_, rfl, ?_, ?_, ?_⟩
  · simp [getClientStats, getAllClients]
  · simp only [getClientStats, getActiveClients]
    exact List.length_filter_le _ _
  · simp only [getClientStats]
    exact sum_status_counts _
  · simp only [getClientStats]
    exact sum_type_counts _

/-- A concrete client already in the terminal `disconnected` status. -/
def clientDisc : AgentClient :=
  { id := "a", type := AgentClientType.custom, name := "n", version := "1"
  , capabilities := []
  , connectionInfo := { connectedAt := 0, lastActivity := 0, transport := "stdio" }
  , status := AgentStatus.disconnected
  , context := { workingDirectory := none }
  , metrics := { cpuUsage := none, memoryUsage := none
               , requestCount := 0, errorCount := 0, uptime := 0 } }

/-- A store holding only `clientDisc`. -/
def smDisc : SessionManagerState := { clients := [("a", clientDisc)] }

/-- C1 counterexample: `disconnected → running` is not in the spec's section 4.2
table (disconnected is terminal), yet `updateClientStatus` applies it: the
status becomes `running` and a `clientStatusChanged` event is published. -/
theorem c1_counterexample :
    specAllowedTransition AgentStatus.disconnected AgentStatus.running = false
    ∧ (getClient "a" (updateClientStatus "a" AgentStatus.running 5 smDisc).1).map
        AgentClient.status = some AgentStatus.running
    ∧ (updateClientStatus "a" AgentStatus.running 5 smDisc).2 ≠ [] := by
  refine ⟨rfl, by decide, by decide⟩

/-- C1 (amended): `updateClientStatus` enforces no transition table: whenever
the client id is registered it sets `status` to the requested target (whatever
the current status), touches `lastActivity`, and publishes exactly one
`clientStatusChanged` event; only an unknown id is a silent no-op with no
event. -/
theorem c1_amended_status_update_unconditional (s : SessionManagerState)
    (clientId : String) (target : AgentStatus) (now : Nat) :
    (∀ c, mapGet clientId s.clients = some c →
        getClient clientId (updateClientStatus clientId target now s).1
          = some { c with status := target,
                          connectionInfo := { c.connectionInfo with lastActivity := now } }
        ∧ (updateClientStatus clientId target now s).2
          = [SMEvent.clientStatusChanged
              { c with status := target,
                       connectionInfo := { c.connectionInfo with lastActivity := now } }
              c.status target])
    ∧ (mapGet clientId s.clients = none →
        updateClientStatus clientId target now s = (s, [])) := by
  constructor
  · intro c h
    constructor
    · simp [getClient, updateClientStatus, h, mapGet_mapSet_self]
    · simp [updateClientStatus, h]
  · intro h
    simp [updateClientStatus, h]

/-- C1 amended witness: concrete application on `smDisc`. -/
theorem c1_amended_witness :
    getClient "a" (updateClientStatus "a" AgentStatus.running 5 smDisc).1
      = some { clientDisc with
               status := AgentStatus.running,
               connectionInfo := { clientDisc.connectionInfo with lastActivity := 5 } }
    ∧ (updateClientStatus "a" AgentStatus.running 5 smDisc).2
      = [SMEvent.clientStatusChanged
          { clientDisc with
            status := AgentStatus.running,
            connectionInfo := { clientDisc.connectionInfo with lastActivity := 5 } }
          AgentStatus.disconnected AgentStatus.running] := by
  have h := (c1_amended_status_update_unconditional smDisc "a" AgentStatus.running 5).1
    clientDisc rfl
  exact ⟨h.1, h.2⟩

/-- A registration payload with empty `id` and empty display name. -/
def emptyIdClient : AgentClient :=
  { id := "", type := AgentClientType.custom, name := "", version := ""
  , capabilities := []
  , connectionInfo := { connectedAt := 0, lastActivity := 0, transport := "stdio" }
  , status := AgentStatus.connected
  , context := { workingDirectory := none }
  , metrics := { cpuUsage := none, memoryUsage := none
               , requestCount := 0, errorCount := 0, uptime := 0 } }

/-- C2 counterexample: registering an entity with empty `id` and empty name does
not fail and does mutate the store: the entity is inserted and a
`clientConnected` event is published (no `InvalidEntity` rejection exists). -/
theorem c2_counterexample :
    emptyIdClient.id = "" ∧ emptyIdClient.name = ""
    ∧ (registerClient emptyIdClient emptySessions).1 ≠ emptySessions
    ∧ getClient "" (registerClient emptyIdClient emptySessions).1 = some emptyIdClient
    ∧ (registerClient emptyIdClient emptySessions).2
        = [SMEvent.clientConnected emptyIdClient] := by
  refine ⟨rfl, rfl, by decide, by decide, rfl⟩

/-- C2 (amended): `registerClient` performs no validation: any entity, even with
empty `id` or name, is inserted as-is (overwriting an existing id) and exactly
one `clientConnected` event is published. Entities built by the initialize
handler are constructed with `status = connected`, `lastActivityAt =
connectedAt = now`, and zero counters, so for those registrations `get(id)`
returns an entity with `status = connected` and `lastActivityAt =
connectedAt`. -/
theorem c2_amended_register_no_validation (c : AgentClient) (s : SessionManagerState)
    (p : InitParams) (now : Nat) (cwd : String) :
    getClient c.id (registerClient c s).1 = some c
    ∧ (registerClient c s).2 = [SMEvent.clientConnected c]
    ∧ (makeInitClient p now cwd).status = AgentStatus.connected
    ∧ (makeInitClient p now cwd).connectionInfo.lastActivity
        = (makeInitClient p now cwd).connectionInfo.connectedAt
    ∧ (makeInitClient p now cwd).metrics.requestCount = 0
    ∧ (makeInitClient p now cwd).metrics.errorCount = 0
    ∧ getClient (makeInitClient p now cwd).id
        (registerClient (makeInitClient p now cwd) s).1
        = some (makeInitClient p now cwd) := by
  refine ⟨?_, rfl, rfl, rfl, rfl, rfl, ?_⟩
  · simp [getClient, registerClient, mapGet_mapSet_self]
  · simp [getClient, registerClient, mapGet_mapSet_self]

/-- A concrete connected client used to exercise unregistration. -/
def clientA : AgentClient :=
  { id := "a", type := AgentClientType.claudeCode, name := "agent", version := "1"
  , capabilities := []
  , connectionInfo := { connectedAt := 1, lastActivity := 1, transport := "stdio" }
  , status := AgentStatus.connected
  , context := { workingDirectory := none }
  , metrics := { cpuUsage := none, memoryUsage := none
               , requestCount := 0, errorCount := 0, uptime := 0 } }

/-- A store holding only `clientA`. -/
def smA : SessionManagerState := { clients := [("a", clientA)] }

/-- C7 counterexample: registering `clientA` and unregistering it returns the
store to the empty initial state: the `SessionManager` retains no bounded
history entry of the entity anywhere (its whole state is the empty map), even
though the status is set and the `clientDisconnected` event is published. -/
theorem c7_counterexample :
    (unregisterClient "a" (registerClient clientA emptySessions).1).1 = emptySessions
    ∧ (unregisterClient "a" (registerClient clientA emptySessions).1).2
        = [SMEvent.clientDisconnected { clientA with status := AgentStatus.disconnected }] := by
  refine ⟨by decide, by decide⟩

/-- C7 (amended): for every registered id, `unregisterClient` removes the entity
from the live map (lookups fail, no binding with that id survives, and the
remaining active clients were already stored) and publishes one
`clientDisconnected` event carrying the entity with status `disconnected`;
no history of the entity is retained in the store. -/
theorem c7_amended_unregister (s : SessionManagerState) (clientId : String)
    (c : AgentClient) (h : mapGet clientId s.clients = some c) :
    getClient clientId (unregisterClient clientId s).1 = none
    ∧ (∀ p ∈ (unregisterClient clientId s).1.clients, p.1 ≠ clientId)
    ∧ (∀ d ∈ getActiveClients (unregisterClient clientId s).1, d ∈ getAllClients s)
    ∧ (unregisterClient clientId s).2
        = [SMEvent.clientDisconnected { c with status := AgentStatus.disconnected }] := by
  refine ⟨?_, ?_, ?_, ?_⟩
  · simp [getClient, unregisterClient, h, mapGet_mapErase_self]
  · intro p hp
    simp only [unregisterClient, h] at hp
    exact mapErase_key_ne clientId s.clients p hp
  · intro d hd
    have hd2 := List.mem_of_mem_filter hd
    simp only [unregisterClient, h, getAllClients] at hd2
    exact mapErase_snd_subset clientId s.clients d hd2
  · simp [unregisterClient, h]

/-- C7 amended witness: concrete application on `smA`. -/
theorem c7_amended_witness :
    getClient "a" (unregisterClient "a" smA).1 = none
    ∧ (unregisterClient "a" smA).2
        = [SMEvent.clientDisconnected { clientA with status := AgentStatus.disconnected }] := by
  have h := c7_amended_unregister smA "a" clientA rfl
  exact ⟨h.1, h.2.2.2⟩

/-- C3 counterexample: after a tracking session for client `a` has already
emitted its completion event (idle expiry at 100), a further
`markTaskCompleted` call for the same id emits a second completion event
without any new `startTaskMonitoring` call: there is no per-episode guard. -/
theorem c3_counterexample :
    (fireIdleTimer (taskKey "a") 100 (startTaskMonitoring "a" 100 0 emptyTracker)).events.length
      = 1
    ∧ (markTaskCompleted "a" "manual" 200
        (fireIdleTimer (taskKey "a") 100
          (startTaskMonitoring "a" 100 0 emptyTracker))).events.length = 2 := by
  refine ⟨by decide, by decide⟩

/-- C3 (amended): `markTaskCompleted` (via `detectTaskCompletion`)
unconditionally appends exactly one completion event on every call — whether
or not one was already emitted for the session — and tears down the pending
idle timer for that client; the only at-most-once behaviour is that a fired
or cleared idle timer does not fire again. -/
theorem c3_amended_mark_always_emits (clientId reason : String) (now : Nat)
    (s : TrackerState) :
    (markTaskCompleted clientId reason now s).events
      = s.events ++ [{ clientId := clientId, trigger := "manual",
                       details := CompletionDetails.manualInfo reason, timestamp := now }]
    ∧ mapGet (taskKey clientId) (markTaskCompleted clientId reason now s).taskTimers
      = none := by
  constructor
  · rfl
  · simp [markTaskCompleted, detectTaskCompletion, stopTaskMonitoring, mapGet_mapErase_self]

theorem fireIdleTimer_of_none (key : String) (t : Nat) (s : TrackerState)
    (h : mapGet key s.taskTimers = none) : fireIdleTimer key t s = s := by
  simp [fireIdleTimer, h]

/-- C4: starting task monitoring with idle timeout `T` at `t0` and observing no
activity, the timer's expiry at `t0 + T` emits exactly one completion event
with trigger `idle_timeout`, after which the timer entry is gone, so no
further idle firing for that client can change the state. -/
theorem c4_idle_timeout_fires_once (clientId : String) (T t0 : Nat) (s0 : TrackerState) :
    (fireIdleTimer (taskKey clientId) (t0 + T)
        (startTaskMonitoring clientId T t0 s0)).events
      = s0.events ++ [{ clientId := clientId, trigger := "idle_timeout",
                        details := idleTimeoutDetails T, timestamp := t0 + T }]
    ∧ mapGet (taskKey clientId)
        (fireIdleTimer (taskKey clientId) (t0 + T)
          (startTaskMonitoring clientId T t0 s0)).taskTimers = none
    ∧ (∀ t, fireIdleTimer (taskKey clientId) t
          (fireIdleTimer (taskKey clientId) (t0 + T) (startTaskMonitoring clientId T t0 s0))
        = fireIdleTimer (taskKey clientId) (t0 + T)
            (startTaskMonitoring clientId T t0 s0)) := by
  have hget : mapGet (taskKey clientId) (startTaskMonitoring clientId T t0 s0).taskTimers
      = some { clientId := clientId, timeoutMs := T, deadline := t0 + T } := by
    simp [startTaskMonitoring, mapGet_mapSet_self]
  have hfire : fireIdleTimer (taskKey clientId) (t0 + T) (startTaskMonitoring clientId T t0 s0)
      = detectTaskCompletion clientId "idle_timeout" (idleTimeoutDetails T) (t0 + T)
          (startTaskMonitoring clientId T t0 s0) := by
    simp [fireIdleTimer, hget]
  have hnone : mapGet (taskKey clientId)
      (fireIdleTimer (taskKey clientId) (t0 + T)
        (startTaskMonitoring clientId T t0 s0)).taskTimers = none := by
    rw [hfire]
    simp [detectTaskCompletion, stopTaskMonitoring, mapGet_mapErase_self]
  refine ⟨?_, hnone, ?_⟩
  · rw [hfire]
    rfl
  · intro t
    exact fireIdleTimer_of_none _ t _ hnone

/-- C5 counterexample: an observed file change of kind `add` on a
pattern-matched path whose content contains a completion keyword emits no
completion event at all: the analyzer requires the event kind to be exactly
`change`. -/
theorem c5_counterexample :
    isCompletionFile "build.log" = true
    ∧ matchedKeywords "done" = ["done"]
    ∧ analyzeFileChangesForCompletion "a"
        { clientId := "a", kind := "add", filePath := "build.log", timestamp := 3 }
        (fun _ => some "done") 5 emptyTracker = emptyTracker := by
  refine ⟨by decide, by decide, by decide⟩

/-- C5 (amended): for every observed file change of kind `change` whose path
matches a completion pattern and whose content contains at least one
completion keyword, exactly one completion event with trigger `file_analysis`
is emitted, its `indicators` listing every matched keyword; a failed content
read is treated as empty content, hence no match and no event. -/
theorem c5_amended_file_analysis (clientId path content : String) (t now : Nat)
    (rf : String → Option String) (s : TrackerState)
    (hpat : isCompletionFile path = true)
    (hread : rf path = some content)
    (hmatch : matchedKeywords content ≠ []) :
    (analyzeFileChangesForCompletion clientId
        { clientId := clientId, kind := "change", filePath := path, timestamp := t }
        rf now s).events
      = s.events ++ [{ clientId := clientId, trigger := "file_analysis",
                       details := CompletionDetails.fileAnalysisInfo path
                                    (matchedKeywords content),
                       timestamp := now }]
    ∧ (∀ rf2 : String → Option String, rf2 path = none →
        analyzeFileChangesForCompletion clientId
          { clientId := clientId, kind := "change", filePath := path, timestamp := t }
          rf2 now s = s) := by
  constructor
  · simp [analyzeFileChangesForCompletion, hpat, hread, hmatch,
      detectTaskCompletion, stopTaskMonitoring]
  · intro rf2 h2
    have hm : matchedKeywords "" = [] := by decide
    simp [analyzeFileChangesForCompletion, hpat, h2, hm]

/-- C5 amended witness: a `change` event on `a.log` with content `done` emits
exactly the one `file_analysis` event with indicator `done`. -/
theorem c5_amended_witness :
    (analyzeFileChangesForCompletion "c"
        { clientId := "c", kind := "change", filePath := "a.log", timestamp := 0 }
        (fun _ => some "done") 9 emptyTracker).events
      = [{ clientId := "c", trigger := "file_analysis",
           details := CompletionDetails.fileAnalysisInfo "a.log" ["done"],
           timestamp := 9 }] := by
  have h := (c5_amended_file_analysis "c" "a.log" "done" 0 9 (fun _ => some "done")
      emptyTracker (by decide) rfl (by decide)).1
  rw [h]
  decide

/-- The tracker state right after `startTaskMonitoring "a" 100 0`: one armed
idle timer with deadline 100 and one registered file listener. -/
def trackerArmed : TrackerState := startTaskMonitoring "a" 100 0 emptyTracker

/-- C8 counterexample: with an armed idle timer (deadline 100), a request-count
increment at time 50 updates the store's `lastActivity` but leaves the
tracker — and in particular the pending idle timer — completely untouched:
the timer keeps deadline 100 instead of being rescheduled to 150. -/
theorem c8_counterexample :
    mapGet (taskKey "a") trackerArmed.taskTimers
      = some { clientId := "a", timeoutMs := 100, deadline := 100 }
    ∧ (serverIncrementClientRequests "a" 50
        { sessions := smA, tracker := trackerArmed }).tracker = trackerArmed
    ∧ (getClient "a" (serverIncrementClientRequests "a" 50
        { sessions := smA, tracker := trackerArmed }).sessions).map
        (fun c => c.connectionInfo.lastActivity) = some 50
    ∧ (100 : Nat) ≠ 50 + 100 := by
  refine ⟨by decide, rfl, by decide, by decide⟩

/-- C8 (amended): a file-change observation on an armed session cancels and
reschedules the idle timer to `now + T` without emitting any completion event
(when the change matches no completion pattern), so the session stays open;
but a request-count increment goes only through the session registry and does
not touch the idle timer at all. -/
theorem c8_amended_activity_and_timer (clientId path : String) (T now t : Nat)
    (rf : String → Option String) (s : TrackerState) (st : ServerState)
    (hl : s.fileListeners = [(clientId, T)])
    (hpat : isCompletionFile path = false) :
    dispatchFileChanged
        { clientId := clientId, kind := "change", filePath := path, timestamp := t }
        rf now s
      = { s with taskTimers := mapSet (taskKey clientId)
                   (TaskTimer.mk clientId T (now + T)) s.taskTimers }
    ∧ (dispatchFileChanged
        { clientId := clientId, kind := "change", filePath := path, timestamp := t }
        rf now s).events = s.events
    ∧ (serverIncrementClientRequests clientId now st).tracker = st.tracker := by
  have h1 : dispatchFileChanged
      { clientId := clientId, kind := "change", filePath := path, timestamp := t }
      rf now s
      = { s with taskTimers := mapSet (taskKey clientId)
                   (TaskTimer.mk clientId T (now + T)) s.taskTimers } := by
    simp [dispatchFileChanged, hl, analyzeFileChangesForCompletion, hpat, resetIdleTimer]
  refine ⟨h1, by rw [h1], rfl⟩

/-- C8 amended witness: on `trackerArmed`, a non-matching file change at time 50
reschedules the idle timer to deadline 150 and changes nothing else. -/
theorem c8_amended_witness :
    dispatchFileChanged
        { clientId := "a", kind := "change", filePath := "x.txt", timestamp := 5 }
        (fun _ => none) 50 trackerArmed
      = { trackerArmed with taskTimers := mapSet (taskKey "a")
                              (TaskTimer.mk "a" 100 150) trackerArmed.taskTimers } := by
  exact (c8_amended_activity_and_timer "a" "x.txt" 100 50 5 (fun _ => none) trackerArmed
    { sessions := emptySessions, tracker := trackerArmed } rfl (by decide)).1

/-- C6 counterexample: two subscribers in registration order, the first of which
raises: `emit` delivers to the first, the exception escapes (flag `true`), and
the second subscriber is never invoked — a raising subscriber does prevent
delivery to the remaining subscribers. -/
theorem c6_counterexample :
    emitToListeners (0 : Nat)
        [{ id := 0, throws := fun _ => true }, { id := 1, throws := fun _ => false }]
      = ([0], true)
    ∧ (1 : Nat) ∉ (emitToListeners (0 : Nat)
        [{ id := 0, throws := fun _ => true }, { id := 1, throws := fun _ => false }]).1 := by
  refine ⟨rfl, by decide⟩

/-- C6 (amended): `emit` dispatches synchronously to subscribers in registration
order, and when no subscriber raises all of them receive the event; but a
subscriber that raises aborts the dispatch: the exception propagates to the
publisher and the subscribers registered after it do not receive the event. -/
theorem c6_amended_emit_order_no_isolation (α : Type) (e : α) :
    (∀ ls : List (Listener α), (∀ l ∈ ls, l.throws e = false) →
        emitToListeners e ls = (ls.map Listener.id, false))
    ∧ (∀ (pre post : List (Listener α)) (lt : Listener α),
        (∀ l ∈ pre, l.throws e = false) → lt.throws e = true →
        emitToListeners e (pre ++ lt :: post)
          = (pre.map Listener.id ++ [lt.id], true)) := by
  constructor
  · intro ls
    induction ls with
    | nil => intro _; rfl
    | cons l rest ih =>
      intro hall
      have hl : l.throws e = false := hall l (List.mem_cons_self l rest)
      simp [emitToListeners, hl, ih (fun x hx => hall x (List.mem_cons_of_mem l hx))]
  · intro pre post lt
    induction pre with
    | nil =>
      intro _ ht
      simp [emitToListeners, ht]
    | cons q rest ih =>
      intro hpre ht
      have hq : q.throws e = false := hpre q (List.mem_cons_self q rest)
      simp [emitToListeners, hq, ih (fun x hx => hpre x (List.mem_cons_of_mem q hx)) ht]

/-- C6 amended witness: three subscribers, the middle one raising: the first two
are invoked in order, the exception escapes, the third is skipped. -/
theorem c6_amended_witness :
    emitToListeners (5 : Nat)
        [{ id := 0, throws := fun _ => false }, { id := 1, throws := fun _ => true },
         { id := 2, throws := fun _ => false }]
      = ([0, 1], true) := by
  have h := (c6_amended_emit_order_no_isolation Nat 5).2
      [{ id := 0, throws := fun _ => false }]
      [{ id := 2, throws := fun _ => false }]
      { id := 1, throws := fun _ => true }
      (by
        intro l hl
        rw [List.mem_singleton.mp hl])
      rfl
  simpa using h
